import Mathlib

/-!
Shallow embedding of the NDLP carebot EVC engine
(`NDLP_project/carebot/evc/engine.py` and the modules it drives) over exact
rational arithmetic.  Python floats are modelled by `ℚ`; the storage rounding
`round(x, 4)` is modelled by `round4`; the per-hormone decay multiplier
`0.5^(1/half_life)` is irrational, so it is carried as a parameter
`ρ : HName → ℚ` constrained by `DecayRateBounds` to the tight rational
bracket containing the true value of `0.5^(1/half_life)` for each hormone.
Wall-clock timestamps are not modelled (they do not enter any computation).
-/

set_option maxHeartbeats 1000000
set_option linter.unnecessarySeqFocus false

/-- The clamp helper from `evc/engine.py`: `max(min_val, min(max_val, value))`. -/
def clamp (value minVal maxVal : ℚ) : ℚ :=
  max minVal (min maxVal value)

/-- Python's `round(x, 4)` used when the engine stores floats, modelled with
round-half-up on exact rationals. -/
def round4 (q : ℚ) : ℚ :=
  ((round (q * 10000) : ℤ) : ℚ) / 10000

/-- The `Intent` enum from `models/evc_models.py`. -/
inductive Intent
  | greeting
  | venting
  | seeking_help
  | praise
  | apology
  | sarcasm
  | aggression
  | neutral
  | farewell
  deriving DecidableEq, Repr

/-- The string `.value` of each `Intent` member. -/
def Intent.value : Intent → String
  | .greeting => "greeting"
  | .venting => "venting"
  | .seeking_help => "seeking_help"
  | .praise => "praise"
  | .apology => "apology"
  | .sarcasm => "sarcasm"
  | .aggression => "aggression"
  | .neutral => "neutral"
  | .farewell => "farewell"

/-- The `EmotionFeatures` record from `models/evc_models.py`, with the pydantic
field defaults. -/
structure EmotionFeatures where
  valence : ℚ := 0
  arousal : ℚ := 0.5
  dominance : ℚ := 0.5
  intent : Intent := .neutral
  sarcasm_prob : ℚ := 0
  support_need : ℚ := 0.5
  uncertainty : ℚ := 0.3
  confidence : ℚ := 0.5
  deriving DecidableEq, Repr

/-- The pydantic range constraints on `EmotionFeatures` (the `ge`/`le` bounds
of each `Field`). -/
def EmotionFeatures.Valid (e : EmotionFeatures) : Prop :=
  -1 ≤ e.valence ∧ e.valence ≤ 1 ∧
  0 ≤ e.arousal ∧ e.arousal ≤ 1 ∧
  0 ≤ e.dominance ∧ e.dominance ≤ 1 ∧
  0 ≤ e.sarcasm_prob ∧ e.sarcasm_prob ≤ 1 ∧
  0 ≤ e.support_need ∧ e.support_need ≤ 1 ∧
  0 ≤ e.uncertainty ∧ e.uncertainty ≤ 1 ∧
  0 ≤ e.confidence ∧ e.confidence ≤ 1

instance (e : EmotionFeatures) : Decidable e.Valid := by
  unfold EmotionFeatures.Valid
  infer_instance

/-- The 8 fixed hormone names, in the order of `HORMONE_ORDER` from
`evc/hormones/cocktail.py`. -/
inductive HName
  | serotonin
  | dopamine
  | cortisol
  | oxytocin
  | adrenaline
  | endorphin
  | gaba
  | norepinephrine
  deriving DecidableEq, Repr, Fintype

/-- The `HORMONE_ORDER` list from `evc/hormones/cocktail.py` (also the
insertion order of `create_all_hormones`). -/
def HORMONE_ORDER : List HName :=
  [.serotonin, .dopamine, .cortisol, .oxytocin, .adrenaline, .endorphin, .gaba, .norepinephrine]

/-- The `name` attribute of each hormone from `evc/hormones/definitions.py`. -/
def HName.name : HName → String
  | .serotonin => "serotonin"
  | .dopamine => "dopamine"
  | .cortisol => "cortisol"
  | .oxytocin => "oxytocin"
  | .adrenaline => "adrenaline"
  | .endorphin => "endorphin"
  | .gaba => "gaba"
  | .norepinephrine => "norepinephrine"

/-- The `baseline` constructor argument of each hormone in
`evc/hormones/definitions.py`. -/
def baseline : HName → ℚ
  | .serotonin => 3.0
  | .dopamine => 2.0
  | .cortisol => 1.0
  | .oxytocin => 1.0
  | .adrenaline => 0.5
  | .endorphin => 1.5
  | .gaba => 2.0
  | .norepinephrine => 1.5

/-- The `level` constructor argument of each hormone (its fresh-session level)
in `evc/hormones/definitions.py`; it coincides with the baseline. -/
def init_level : HName → ℚ
  | .serotonin => 3.0
  | .dopamine => 2.0
  | .cortisol => 1.0
  | .oxytocin => 1.0
  | .adrenaline => 0.5
  | .endorphin => 1.5
  | .gaba => 2.0
  | .norepinephrine => 1.5

/-- The `half_life` constructor argument of each hormone in
`evc/hormones/definitions.py` (in turns). -/
def half_life : HName → ℕ
  | .serotonin => 6
  | .dopamine => 2
  | .cortisol => 8
  | .oxytocin => 4
  | .adrenaline => 1
  | .endorphin => 3
  | .gaba => 3
  | .norepinephrine => 2

/-- The `max_production` constructor argument of each hormone in
`evc/hormones/definitions.py`. -/
def max_production : HName → ℚ
  | .serotonin => 1.5
  | .dopamine => 3.0
  | .cortisol => 2.0
  | .oxytocin => 1.5
  | .adrenaline => 5.0
  | .endorphin => 2.0
  | .gaba => 2.0
  | .norepinephrine => 2.5

/-- The `compute_stimulus` method of each hormone subclass in
`evc/hormones/definitions.py`. -/
def compute_stimulus (h : HName) (e : EmotionFeatures) : ℚ :=
  match h with
  | .serotonin =>
      let pos_val := max 0 e.valence
      let calm := max 0 (1 - e.arousal)
      let clarity := 1 - e.uncertainty
      pos_val * 0.5 + calm * 0.3 + clarity * 0.2
  | .dopamine =>
      let excitement := max 0 e.valence * e.arousal
      let praise : ℚ := if e.intent.value = "praise" then 0.5 else 0
      min 1 (excitement * 0.6 + praise * 0.4)
  | .cortisol =>
      let stress := max 0 (-e.valence)
      let tension := e.arousal * 0.5
      let worry := e.uncertainty * 0.3
      min 1 (stress * 0.5 + tension + worry)
  | .oxytocin =>
      let trust := (1 - e.sarcasm_prob) * 0.3
      let gratitude : ℚ :=
        if e.intent.value = "praise" ∨ e.intent.value = "apology" then 0.4 else 0
      let warmth := max 0 e.valence * 0.3
      min 1 (trust + gratitude + warmth)
  | .adrenaline =>
      let danger := max 0 (-e.valence) * e.arousal
      let crisis : ℚ := if e.support_need > 0.8 then 0.5 else 0
      let anger : ℚ :=
        if e.intent.value = "complaint" ∧ e.dominance > 0.7 then 0.3 else 0
      min 1 (danger * 0.5 + crisis + anger)
  | .endorphin =>
      let relief := max 0 (0.5 + e.valence * 0.5)
      let venting : ℚ := if e.intent.value = "venting" then 0.3 else 0
      let low_arousal := max 0 (1 - e.arousal) * 0.2
      min 1 (relief * 0.5 + venting + low_arousal)
  | .gaba =>
      let calm := max 0 (1 - e.arousal)
      let safe := max 0 (0.5 + e.valence * 0.5)
      let low_need := max 0 (1 - e.support_need) * 0.3
      min 1 (calm * 0.4 + safe * 0.3 + low_need)
  | .norepinephrine =>
      let alertness := e.arousal * 0.6
      let intensity := |e.valence| * 0.2
      let focus := e.dominance * 0.2
      min 1 (alertness + intensity + focus)

/-- The 8×8 `INTERACTION_MATRIX` from `evc/hormones/cocktail.py`:
`INTERACTION_MATRIX i j` is the effect of hormone `j` on hormone `i`. -/
def INTERACTION_MATRIX (i j : HName) : ℚ :=
  match i with
  | .serotonin =>
      match j with
      | .serotonin => 0 | .dopamine => 0.10 | .cortisol => -0.20 | .oxytocin => 0.10
      | .adrenaline => 0 | .endorphin => 0.10 | .gaba => 0.10 | .norepinephrine => 0
  | .dopamine =>
      match j with
      | .serotonin => 0.10 | .dopamine => 0 | .cortisol => 0 | .oxytocin => 0
      | .adrenaline => 0.10 | .endorphin => 0 | .gaba => 0 | .norepinephrine => 0.10
  | .cortisol =>
      match j with
      | .serotonin => -0.15 | .dopamine => -0.05 | .cortisol => 0 | .oxytocin => -0.15
      | .adrenaline => 0.20 | .endorphin => -0.10 | .gaba => -0.10 | .norepinephrine => 0.10
  | .oxytocin =>
      match j with
      | .serotonin => 0.15 | .dopamine => 0 | .cortisol => -0.15 | .oxytocin => 0
      | .adrenaline => -0.10 | .endorphin => 0.10 | .gaba => 0.15 | .norepinephrine => 0
  | .adrenaline =>
      match j with
      | .serotonin => -0.10 | .dopamine => 0.05 | .cortisol => 0.15 | .oxytocin => -0.05
      | .adrenaline => 0 | .endorphin => 0 | .gaba => -0.25 | .norepinephrine => 0.15
  | .endorphin =>
      match j with
      | .serotonin => 0.10 | .dopamine => 0 | .cortisol => -0.10 | .oxytocin => 0.10
      | .adrenaline => -0.05 | .endorphin => 0 | .gaba => 0.10 | .norepinephrine => 0
  | .gaba =>
      match j with
      | .serotonin => 0.10 | .dopamine => 0 | .cortisol => -0.10 | .oxytocin => 0.10
      | .adrenaline => -0.15 | .endorphin => 0.05 | .gaba => 0 | .norepinephrine => -0.10
  | .norepinephrine =>
      match j with
      | .serotonin => 0 | .dopamine => 0.10 | .cortisol => 0.10 | .oxytocin => 0
      | .adrenaline => 0.20 | .endorphin => 0 | .gaba => -0.10 | .norepinephrine => 0

/-- The `E_WEIGHTS` table from `evc/hormones/cocktail.py`. -/
def E_WEIGHTS : HName → ℚ
  | .serotonin => 0.25
  | .dopamine => 0.15
  | .cortisol => -0.25
  | .oxytocin => 0.15
  | .adrenaline => -0.10
  | .endorphin => 0.10
  | .gaba => 0.05
  | .norepinephrine => -0.05

/-- The `produce` method of `HormoneBase` (`evc/hormones/__init__.py`):
`level = min(10, level + stimulus * max_production)`. -/
def produce (level stimulus maxProd : ℚ) : ℚ :=
  min 10 (level + stimulus * maxProd)

/-- Step 1 of `HormoneCocktail.update`: every hormone produces from its own
stimulus. -/
def produce_all (e : EmotionFeatures) (levels : HName → ℚ) : HName → ℚ :=
  fun h => produce (levels h) (compute_stimulus h e) (max_production h)

/-- The `get_normalized` method of `HormoneBase`: `level / 10`. -/
def get_normalized (level : ℚ) : ℚ :=
  level / 10

/-- The per-target interaction sum of `HormoneCocktail._apply_interactions`,
computed from the snapshot `levels` taken before any interaction is applied. -/
def interaction_sum (levels : HName → ℚ) (i : HName) : ℚ :=
  (HORMONE_ORDER.filter (fun j => j ≠ i)).foldl
    (fun acc j => acc + INTERACTION_MATRIX i j * get_normalized (levels j)) 0

/-- The `stimulate` method of `HormoneBase`: `level = min(10, level + amount)`. -/
def stimulate (level amount : ℚ) : ℚ :=
  min 10 (level + amount)

/-- The `suppress` method of `HormoneBase`: `level = max(0, level - amount)`. -/
def suppress (level amount : ℚ) : ℚ :=
  max 0 (level - amount)

/-- The `_apply_interactions` method of `HormoneCocktail`: every target is
computed from the same pre-interaction snapshot of all 8 levels. -/
def apply_interactions (levels : HName → ℚ) : HName → ℚ :=
  fun i =>
    let s := interaction_sum levels i
    if 0 < s then stimulate (levels i) s
    else if s < 0 then suppress (levels i) |s|
    else levels i

/-- The `decay` method of `HormoneBase`, with `ρ h` standing for the decay
multiplier `0.5^(1/half_life h)`: the baseline-relative offset is multiplied
by `ρ h`. -/
def decay (ρ : HName → ℚ) (h : HName) (level : ℚ) : ℚ :=
  baseline h + (level - baseline h) * ρ h

/-- The lower end of the rational bracket enclosing `0.5^(1/half_life h)`. -/
def decay_lo : HName → ℚ
  | .serotonin => 0.8908
  | .dopamine => 0.7071
  | .cortisol => 0.9170
  | .oxytocin => 0.8408
  | .adrenaline => 0.5
  | .endorphin => 0.7937
  | .gaba => 0.7937
  | .norepinephrine => 0.7071

/-- The upper end of the rational bracket enclosing `0.5^(1/half_life h)`. -/
def decay_hi : HName → ℚ
  | .serotonin => 0.8909
  | .dopamine => 0.7072
  | .cortisol => 0.9171
  | .oxytocin => 0.8409
  | .adrenaline => 0.5
  | .endorphin => 0.7938
  | .gaba => 0.7938
  | .norepinephrine => 0.7072

/-- The hypothesis tying the decay-rate parameter `ρ` to the source's
`0.5^(1/half_life)`: each `ρ h` lies in the rational bracket that contains the
true (irrational, except for half-life 1) decay multiplier. -/
def DecayRateBounds (ρ : HName → ℚ) : Prop :=
  ∀ h, decay_lo h ≤ ρ h ∧ ρ h ≤ decay_hi h

/-- The `update` method of `HormoneCocktail`: production, then simultaneous
interaction, then decay. -/
def cocktail_update (ρ : HName → ℚ) (e : EmotionFeatures) (levels : HName → ℚ) :
    HName → ℚ :=
  fun h => decay ρ h (apply_interactions (produce_all e levels) h)

/-- The `compute_E` method of `HormoneCocktail`:
`E = max(-10, min(10, Σ E_WEIGHTS h × level h))`, iterating in the fixed
hormone order. -/
def compute_E (levels : HName → ℚ) : ℚ :=
  max (-10) (min 10 (HORMONE_ORDER.foldl (fun acc h => acc + E_WEIGHTS h * levels h) 0))

/-- The `state_map` table of `HormoneCocktail.get_dominant_state`. -/
def state_map : HName → String
  | .serotonin => "content"
  | .dopamine => "excited"
  | .cortisol => "stressed"
  | .oxytocin => "trusting"
  | .adrenaline => "alert"
  | .endorphin => "relieved"
  | .gaba => "calm"
  | .norepinephrine => "focused"

/-- The `get_dominant_state` method of `HormoneCocktail`: hormone with the
largest level−baseline difference (first in order wins ties), but "neutral"
when that maximum difference is below 0.5. -/
def get_dominant_state (levels : HName → ℚ) : String :=
  let r := HORMONE_ORDER.foldl
    (fun best h =>
      if levels h - baseline h > best.1 then (levels h - baseline h, state_map h) else best)
    (-999, "neutral")
  if r.1 < 0.5 then "neutral" else r.2

/-- The `serialize_levels` method of `HormoneCocktail` (dict insertion order is
the creation order, i.e. the fixed hormone order). -/
def serialize_levels (levels : HName → ℚ) : List (String × ℚ) :=
  HORMONE_ORDER.map (fun h => (h.name, levels h))

/-- Resolution of a stored key against the fixed hormone set (the
`if name in self.hormones` test of `restore_levels`). -/
def hname_of_string (s : String) : Option HName :=
  HORMONE_ORDER.find? (fun h => h.name = s)

/-- One iteration of the `restore_levels` loop: a stored entry whose name
matches a hormone overwrites that hormone's level, any other entry is
skipped. -/
def restore_step (acc : HName → ℚ) (p : String × ℚ) : HName → ℚ :=
  match hname_of_string p.1 with
  | some h0 => fun h => if h = h0 then p.2 else acc h
  | none => acc

/-- The `restore_levels` method of `HormoneCocktail`: each stored entry whose
name matches a hormone overwrites that hormone's level; other entries are
skipped. -/
def restore_levels (stored : List (String × ℚ)) (levels : HName → ℚ) : HName → ℚ :=
  stored.foldl restore_step levels

/-- The `EVCFlags` record from `models/evc_models.py`. -/
structure EVCFlags where
  sarcasm : Bool := false
  anger : Bool := false
  anxiety : Bool := false
  stress : Bool := false
  crisis : Bool := false
  boundary_setting : Bool := false
  mood_swing : Bool := false
  deriving DecidableEq, Repr

/-- The `EVCForces` record from `models/evc_models.py`. -/
structure EVCForces where
  S : ℚ := 0
  D : ℚ := 0
  K : ℚ := 1
  deriving DecidableEq, Repr

/-- The `EmotionalZone` enum from `models/evc_models.py`. -/
inductive EmotionalZone
  | ExtremeNegative
  | Negative
  | Neutral
  | Positive
  | OverheatPositive
  deriving DecidableEq, Repr

/-- The `EmotionalPhase` enum from `models/evc_models.py`. -/
inductive EmotionalPhase
  | CrashRecovery
  | Declining
  | Stable
  | Rising
  | Peak
  deriving DecidableEq, Repr

/-- The `EVCState` record from `models/evc_models.py`.  The wall-clock
`timestamp` field is omitted: it never enters any computation. -/
structure EVCState where
  E : ℚ
  E_prev : ℚ
  delta_E : ℚ
  E_target : ℚ
  I : ℚ
  M : ℚ
  zone : EmotionalZone
  phase : EmotionalPhase
  flags : EVCFlags
  turn : ℕ
  delta_history : List ℚ
  hormone_levels : List (String × ℚ)
  bot_E : ℚ
  bot_pacing_turns : ℤ
  bot_negative_streak : ℤ
  dominant_state : String
  deriving DecidableEq, Repr

/-- The `compute_support_force` function from `evc/scoring.py` (before the
4-decimal rounding applied by `compute_forces`). -/
def compute_support_force (e : EmotionFeatures) (evc : EVCState) : ℚ :=
  let praise : ℚ :=
    if e.intent = Intent.praise then max 0 e.valence
    else if e.valence > 0.3 then e.valence * 0.5
    else 0
  let apology : ℚ := if e.intent = Intent.apology then 0.5 else 0
  let clarity : ℚ := 1 - e.uncertainty
  let trust_from_sarcasm : ℚ := (1 - e.sarcasm_prob) * 0.5
  let trust_from_history : ℚ := if evc.E > 0 then 0.3 else 0
  let trust : ℚ := trust_from_sarcasm + trust_from_history
  max 0 (min 1 (0.40 * praise + 0.30 * apology + 0.20 * clarity + 0.10 * trust))

/-- The `compute_drag_force` function from `evc/scoring.py` (before the
4-decimal rounding applied by `compute_forces`). -/
def compute_drag_force (e : EmotionFeatures) : ℚ :=
  let insult : ℚ := max 0 (-e.valence)
  let sarcasm : ℚ := e.sarcasm_prob
  let uncertainty : ℚ := e.uncertainty
  let conflict : ℚ := if e.valence < 0 ∧ e.dominance > 0.6 then e.dominance * 0.5 else 0
  max 0 (min 1 (0.30 * insult + 0.25 * sarcasm + 0.25 * uncertainty + 0.20 * conflict))

/-- The body of `compute_sensitivity` from `evc/scoring.py`, as a function of
the flag set it reads: `K = 1.0 + 0.3·arousal + 0.2·uncertainty + 0.4·risk`
with the risk score accumulated from the given flags and capped at 1.0, then
clamped to [0.5, 2.5]. -/
def sensitivity_from_flags (e : EmotionFeatures) (flags : EVCFlags) : ℚ :=
  let risk_score : ℚ :=
    min 1
      ((if flags.anger then 0.3 else 0) + (if flags.anxiety then 0.2 else 0) +
        (if flags.stress then 0.2 else 0) + (if flags.sarcasm then 0.15 else 0) +
        (if flags.crisis then 0.5 else 0))
  max 0.5 (min 2.5 (1.0 + 0.3 * e.arousal + 0.2 * e.uncertainty + 0.4 * risk_score))

/-- The `compute_sensitivity` function from `evc/scoring.py`: it reads the
flag set carried in the state record it is handed. -/
def compute_sensitivity (e : EmotionFeatures) (evc : EVCState) : ℚ :=
  sensitivity_from_flags e evc.flags

/-- The `compute_forces` function from `evc/scoring.py`, which rounds each
force to 4 decimals. -/
def compute_forces (e : EmotionFeatures) (evc : EVCState) : EVCForces :=
  { S := round4 (compute_support_force e evc)
    D := round4 (compute_drag_force e)
    K := round4 (compute_sensitivity e evc) }

/-- The `classify_zone` function from `evc/rules.py`. -/
def classify_zone (E : ℚ) : EmotionalZone :=
  if E ≤ -6 then .ExtremeNegative
  else if E ≤ -2 then .Negative
  else if E ≤ 2 then .Neutral
  else if E ≤ 6 then .Positive
  else .OverheatPositive

/-- The `classify_phase` function from `evc/rules.py`, evaluated in source
order with the first matching branch winning. -/
def classify_phase (E delta_E : ℚ) : EmotionalPhase :=
  if E ≤ -6 ∧ delta_E > 0 then .CrashRecovery
  else if E > 6 ∧ delta_E < 0 then .Peak
  else if delta_E < -0.5 then .Declining
  else if delta_E > 0.5 then .Rising
  else .Stable

/-- The `update_flags` function from `evc/rules.py`: every flag is recomputed
from scratch (the incoming flag set is ignored). -/
def update_flags (_current_flags : EVCFlags) (e : EmotionFeatures) (E : ℚ) : EVCFlags :=
  { sarcasm := decide (e.sarcasm_prob > 0.5)
    anger := decide (e.valence < -0.5 ∧ e.arousal > 0.7 ∧ e.dominance > 0.6)
    anxiety := decide (e.valence < -0.3 ∧ e.arousal > 0.6 ∧ e.dominance < 0.4)
    stress := decide (e.arousal > 0.7 ∧ e.support_need > 0.6)
    crisis := decide (E ≤ -6)
    boundary_setting := decide (e.dominance > 0.7 ∧ e.intent = Intent.aggression)
    mood_swing := decide (|e.valence| > 0.7 ∧ e.arousal > 0.6) }

/-- The persisted fields of `BotEmotionalState` from `evc/mirroring.py`; the
constructor parameters are fixed (mirror 0.6, lead rate 0.4, min pacing 2,
smoothing 0.5, max lead 3.0) and appear inline below. -/
structure BotEmotionalState where
  E_bot : ℚ := 0
  pacing_turns : ℤ := 0
  user_negative_streak : ℤ := 0
  deriving DecidableEq, Repr

/-- The streak-tracking step of `BotEmotionalState.update`: a negative user
energy increments both counters, otherwise the streak resets and pacing drops
by one, floored at 0. -/
def track_streak (b : BotEmotionalState) (E_user : ℚ) : BotEmotionalState :=
  if E_user < -0.5 then
    { b with
      user_negative_streak := b.user_negative_streak + 1
      pacing_turns := b.pacing_turns + 1 }
  else
    { b with
      user_negative_streak := 0
      pacing_turns := max 0 (b.pacing_turns - 1) }

/-- Phase 1 of `BotEmotionalState.update`: the mirror target, 60% of a
negative user energy, 80% of a non-negative one. -/
def mirror_target (E_user : ℚ) : ℚ :=
  if E_user < 0 then E_user * 0.6 else E_user * 0.8

/-- Phase 2 of `BotEmotionalState.update`: the leading force, zero unless the
(post-increment) pacing count has reached min_pacing = 2 with a negative user
energy, then `min(3.0, 0.4 × (pacing_turns − 2))`. -/
def lead_force (pacing_turns : ℤ) (E_user : ℚ) : ℚ :=
  if 2 ≤ pacing_turns ∧ E_user < 0 then
    min 3.0 (0.4 * ((pacing_turns : ℚ) - 2))
  else 0

/-- The `update` method of `BotEmotionalState`: streak tracking, mirror
target, leading force, exponential smoothing with factor 0.5, and the final
clamp of `E_bot` to [-8, 8]. -/
def bot_update (b : BotEmotionalState) (E_user : ℚ) : BotEmotionalState :=
  let b1 := track_streak b E_user
  let target := mirror_target E_user + lead_force b1.pacing_turns E_user
  let E1 := b1.E_bot + 0.5 * (target - b1.E_bot)
  { b1 with E_bot := max (-8) (min 8 E1) }

/-- Modelled from the spec: `apply_therapeutic_bias` from `evc/therapeutic.py`,
a file that is not present under the examined sources (only its import in
`evc/engine.py` is).  Spec §4.3: the bias adjusts S upward only when the
previous energy is negative, the adjustment is zero for E ≥ 0 and strictly
increasing in magnitude as E becomes more negative, and the biased S is
re-clamped to [0, 1]; the exact coefficient is left open by the spec, so the
slope 0.05 per unit of negative energy is an implementation choice here. -/
def apply_therapeutic_bias (S E_prev : ℚ) : ℚ :=
  if E_prev < 0 then min 1 (max 0 (S + 0.05 * (-E_prev))) else S

/-- The `update_evc` function from `evc/engine.py` (the per-turn state
transition), with `ρ` the decay-multiplier parameter of the cocktail and the
wall-clock timestamp omitted. -/
def update_evc (ρ : HName → ℚ) (current_state : EVCState) (emotion : EmotionFeatures) :
    EVCState × EVCForces :=
  let E_prev := current_state.E
  let levels0 : HName → ℚ :=
    if current_state.hormone_levels = [] then init_level
    else restore_levels current_state.hormone_levels init_level
  let levels1 := cocktail_update ρ emotion levels0
  let E_hormonal := compute_E levels1
  let forces := compute_forces emotion current_state
  let S_biased := apply_therapeutic_bias forces.S E_prev
  let forces_biased : EVCForces := { S := round4 S_biased, D := forces.D, K := forces.K }
  let E_target_forces := clamp (forces.K * (S_biased - forces.D) * 10) (-10) 10
  let E_blended := 0.7 * E_hormonal + 0.3 * E_target_forces
  let delta_E := clamp (E_blended - E_prev) (-3) 3
  let E_next := clamp (E_prev + delta_E) (-10) 10
  let bot0 : BotEmotionalState :=
    { E_bot := current_state.bot_E
      pacing_turns := current_state.bot_pacing_turns
      user_negative_streak := current_state.bot_negative_streak }
  let bot1 := bot_update bot0 E_next
  let zone := classify_zone E_next
  let phase := classify_phase E_next delta_E
  let flags := update_flags current_state.flags emotion E_next
  let dh := current_state.delta_history ++ [round4 delta_E]
  let delta_history := if dh.length > 5 then dh.drop (dh.length - 5) else dh
  ({ E := round4 E_next
     E_prev := round4 E_prev
     delta_E := round4 delta_E
     E_target := round4 E_blended
     I := 0.3
     M := 0.05
     zone := zone
     phase := phase
     flags := flags
     turn := current_state.turn + 1
     delta_history := delta_history
     hormone_levels := serialize_levels levels1
     bot_E := round4 bot1.E_bot
     bot_pacing_turns := bot1.pacing_turns
     bot_negative_streak := bot1.user_negative_streak
     dominant_state := get_dominant_state levels1 },
   forces_biased)

/-- The `create_initial_state` function from `evc/engine.py` (timestamp
omitted). -/
def create_initial_state : EVCState :=
  { E := 0
    E_prev := 0
    delta_E := 0
    E_target := 0
    I := 0.3
    M := 0.05
    zone := .Neutral
    phase := .Stable
    flags := {}
    turn := 0
    delta_history := []
    hormone_levels := serialize_levels init_level
    bot_E := 0
    bot_pacing_turns := 0
    bot_negative_streak := 0
    dominant_state := "neutral" }

/-- States reachable from `create_initial_state` by any number of `update_evc`
steps with range-valid emotion inputs, for a fixed decay-rate parameter. -/
inductive Reachable (ρ : HName → ℚ) : EVCState → Prop
  | init : Reachable ρ create_initial_state
  | step (s : EVCState) (e : EmotionFeatures) :
      Reachable ρ s → e.Valid → Reachable ρ (update_evc ρ s e).1

/-- Iterated `bot_update` from rest (`E_bot = 0`, both counters 0), fed the
user-energy sequence `es`. -/
def bot_traj (es : ℕ → ℚ) : ℕ → BotEmotionalState
  | 0 => {}
  | n + 1 => bot_update (bot_traj es n) (es n)

/-- The cocktail levels the engine restores in Step 1 of `update_evc`. -/
def engine_levels0 (s : EVCState) : HName → ℚ :=
  if s.hormone_levels = [] then init_level
  else restore_levels s.hormone_levels init_level

/-- The cocktail levels after Step 2 of `update_evc`. -/
def engine_levels1 (ρ : HName → ℚ) (s : EVCState) (e : EmotionFeatures) : HName → ℚ :=
  cocktail_update ρ e (engine_levels0 s)

/-- The blended energy of Step 6 of `update_evc`:
`0.7 × E_hormonal + 0.3 × E_target_forces`. -/
def engine_E_blended (ρ : HName → ℚ) (s : EVCState) (e : EmotionFeatures) : ℚ :=
  0.7 * compute_E (engine_levels1 ρ s e) +
    0.3 * clamp ((compute_forces e s).K *
      (apply_therapeutic_bias (compute_forces e s).S s.E - (compute_forces e s).D) * 10)
      (-10) 10

/-- The rate-limited energy change of Step 6 of `update_evc`. -/
def engine_delta (ρ : HName → ℚ) (s : EVCState) (e : EmotionFeatures) : ℚ :=
  clamp (engine_E_blended ρ s e - s.E) (-3) 3

/-- The next energy of Step 6 of `update_evc`. -/
def engine_E_next (ρ : HName → ℚ) (s : EVCState) (e : EmotionFeatures) : ℚ :=
  clamp (s.E + engine_delta ρ s e) (-10) 10

/-- A concrete decay-rate vector inside every bracket of `DecayRateBounds`,
used to instantiate universally quantified theorems. -/
def rho_star : HName → ℚ
  | .serotonin => 0.89085
  | .dopamine => 0.70715
  | .cortisol => 0.91705
  | .oxytocin => 0.84085
  | .adrenaline => 0.5
  | .endorphin => 0.79375
  | .gaba => 0.79375
  | .norepinephrine => 0.70715

/-- The emotion input of the praise scenario: valence 0.8, intent praise, all
other fields at their pydantic defaults. -/
def e_praise : EmotionFeatures :=
  { valence := 0.8, intent := .praise }

/-- An emotion input whose recomputed flag set has the anger flag raised
(valence −0.6, arousal 0.8, dominance 0.7, rest default). -/
def e_anger : EmotionFeatures :=
  { valence := -0.6, arousal := 0.8, dominance := 0.7 }

/-- The all-defaults emotion input. -/
def e_default : EmotionFeatures := {}

/-- A constantly negative user-energy sequence. -/
def es_neg : ℕ → ℚ := fun _ => -1

/-- A stored hormone map with one matching and one unknown name. -/
def stored_mixed : List (String × ℚ) := [("serotonin", -100), ("bogus", 5)]

/-- A state whose persisted hormone map holds an out-of-range negative level. -/
def s_below : EVCState :=
  { create_initial_state with hormone_levels := [("serotonin", -100)] }

/-- A state whose persisted hormone map holds an out-of-range high level. -/
def s_above : EVCState :=
  { create_initial_state with hormone_levels := [("serotonin", 100)] }

/-! Helper lemmas. -/

theorem le_clamp (value minVal maxVal : ℚ) : minVal ≤ clamp value minVal maxVal :=
  le_max_left _ _

theorem clamp_le (value minVal maxVal : ℚ) (h : minVal ≤ maxVal) :
    clamp value minVal maxVal ≤ maxVal :=
  max_le h (min_le_left _ _)

theorem clamp_eq_self (value minVal maxVal : ℚ) (h1 : minVal ≤ value) (h2 : value ≤ maxVal) :
    clamp value minVal maxVal = value := by
  unfold clamp
  rw [min_eq_right h2, max_eq_right h1]

theorem round4_mono {x y : ℚ} (h : x ≤ y) : round4 x ≤ round4 y := by
  unfold round4
  have hr : round (x * 10000) ≤ round (y * 10000) := by
    rw [round_eq, round_eq]
    exact Int.floor_le_floor (by linarith)
  have hc : ((round (x * 10000) : ℤ) : ℚ) ≤ ((round (y * 10000) : ℤ) : ℚ) :=
    Int.cast_le.mpr hr
  linarith

theorem round4_intCast (n : ℤ) : round4 ((n : ℚ)) = n := by
  unfold round4
  have h : ((n : ℚ)) * 10000 = (((n * 10000 : ℤ)) : ℚ) := by
    push_cast
    ring
  rw [h, round_intCast]
  push_cast
  field_simp

theorem round4_abs_sub (x : ℚ) : |round4 x - x| ≤ 1 / 20000 := by
  have h := abs_sub_round (x * 10000)
  unfold round4
  have h2 : ((round (x * 10000) : ℤ) : ℚ) / 10000 - x
      = -((x * 10000 - ((round (x * 10000) : ℤ) : ℚ)) / 10000) := by
    ring
  rw [h2, abs_neg, abs_div]
  rw [abs_of_pos (by norm_num : (0:ℚ) < 10000)]
  linarith

theorem round4_clamp_mem (x lo hi : ℚ) (hlo : round4 lo = lo) (hhi : round4 hi = hi)
    (h : lo ≤ hi) :
    lo ≤ round4 (clamp x lo hi) ∧ round4 (clamp x lo hi) ≤ hi := by
  constructor
  · calc lo = round4 lo := hlo.symm
      _ ≤ round4 (clamp x lo hi) := round4_mono (le_clamp x lo hi)
  · calc round4 (clamp x lo hi) ≤ round4 hi := round4_mono (clamp_le x lo hi h)
      _ = hi := hhi

theorem round4_ten : round4 10 = 10 := by
  have h := round4_intCast 10
  norm_num at h
  exact h

theorem round4_neg_ten : round4 (-10) = -10 := by
  have h := round4_intCast (-10)
  norm_num at h
  exact h

theorem round4_three : round4 3 = 3 := by
  have h := round4_intCast 3
  norm_num at h
  exact h

theorem round4_neg_three : round4 (-3) = -3 := by
  have h := round4_intCast (-3)
  norm_num at h
  exact h

theorem round4_eq_self {x : ℚ} {n : ℤ} (h : x * 10000 = (n : ℚ)) : round4 x = x := by
  unfold round4
  rw [h, round_intCast]
  have h10 : (10000 : ℚ) ≠ 0 := by norm_num
  field_simp
  linarith [h]

/-! Projections of `update_evc` in terms of the named intermediate
quantities; each is definitional. -/

theorem update_evc_E_eq (ρ : HName → ℚ) (s : EVCState) (e : EmotionFeatures) :
    (update_evc ρ s e).1.E = round4 (engine_E_next ρ s e) := rfl

theorem update_evc_delta_eq (ρ : HName → ℚ) (s : EVCState) (e : EmotionFeatures) :
    (update_evc ρ s e).1.delta_E = round4 (engine_delta ρ s e) := rfl

theorem update_evc_E_target_eq (ρ : HName → ℚ) (s : EVCState) (e : EmotionFeatures) :
    (update_evc ρ s e).1.E_target = round4 (engine_E_blended ρ s e) := rfl

theorem update_evc_levels_eq (ρ : HName → ℚ) (s : EVCState) (e : EmotionFeatures) :
    (update_evc ρ s e).1.hormone_levels = serialize_levels (engine_levels1 ρ s e) := rfl

theorem update_evc_turn_eq (ρ : HName → ℚ) (s : EVCState) (e : EmotionFeatures) :
    (update_evc ρ s e).1.turn = s.turn + 1 := rfl

theorem update_evc_flags_eq (ρ : HName → ℚ) (s : EVCState) (e : EmotionFeatures) :
    (update_evc ρ s e).1.flags = update_flags s.flags e (engine_E_next ρ s e) := rfl

theorem update_evc_K_eq (ρ : HName → ℚ) (s : EVCState) (e : EmotionFeatures) :
    (update_evc ρ s e).2.K = round4 (sensitivity_from_flags e s.flags) := rfl

/-! Range lemmas for the cocktail pipeline. -/

theorem decay_rate_unit {ρ : HName → ℚ} (hρ : DecayRateBounds ρ) (h : HName) :
    0 ≤ ρ h ∧ ρ h ≤ 1 := by
  have hb := hρ h
  cases h <;>
    · simp only [decay_lo, decay_hi] at hb
      constructor <;> linarith [hb.1, hb.2]

theorem compute_stimulus_nonneg (h : HName) (e : EmotionFeatures) (he : e.Valid) :
    0 ≤ compute_stimulus h e := by
  obtain ⟨hv1, hv2, ha1, ha2, hd1, hd2, hsp1, hsp2, hsn1, hsn2, hu1, hu2, hc1, hc2⟩ := he
  have hmv := le_max_left (0 : ℚ) e.valence
  have hmnv := le_max_left (0 : ℚ) (-e.valence)
  have hma := le_max_left (0 : ℚ) (1 - e.arousal)
  have hmr := le_max_left (0 : ℚ) (0.5 + e.valence * 0.5)
  have hmn := le_max_left (0 : ℚ) (1 - e.support_need)
  have habs := abs_nonneg e.valence
  cases h <;>
    · dsimp only [compute_stimulus]
      first
      | nlinarith [hmv, hma, hmnv, hmr, hmn, habs]
      | exact le_min (by norm_num)
          (by nlinarith [hmv, hma, hmnv, hmr, hmn, habs,
            mul_nonneg hmv ha1,
            mul_nonneg hmnv ha1,
            (by positivity : (0:ℚ) ≤ (if e.intent.value = "praise" then (0.5:ℚ) else 0)),
            (by positivity : (0:ℚ) ≤ (if e.intent.value = "praise" ∨ e.intent.value = "apology" then (0.4:ℚ) else 0)),
            (by positivity : (0:ℚ) ≤ (if e.support_need > 0.8 then (0.5:ℚ) else 0)),
            (by positivity : (0:ℚ) ≤ (if e.intent.value = "complaint" ∧ e.dominance > 0.7 then (0.3:ℚ) else 0)),
            (by positivity : (0:ℚ) ≤ (if e.intent.value = "venting" then (0.3:ℚ) else 0))])

theorem max_production_nonneg (h : HName) : 0 ≤ max_production h := by
  cases h <;> norm_num [max_production]

theorem baseline_mem (h : HName) : 0 ≤ baseline h ∧ baseline h ≤ 10 := by
  cases h <;> constructor <;> norm_num [baseline]

theorem produce_all_mem (e : EmotionFeatures) (he : e.Valid) (L : HName → ℚ)
    (hL : ∀ h, 0 ≤ L h ∧ L h ≤ 10) (h : HName) :
    0 ≤ produce_all e L h ∧ produce_all e L h ≤ 10 := by
  unfold produce_all produce
  constructor
  · exact le_min (by norm_num)
      (add_nonneg (hL h).1 (mul_nonneg (compute_stimulus_nonneg h e he) (max_production_nonneg h)))
  · exact min_le_left _ _

theorem apply_interactions_mem (L : HName → ℚ) (hL : ∀ h, 0 ≤ L h ∧ L h ≤ 10) (h : HName) :
    0 ≤ apply_interactions L h ∧ apply_interactions L h ≤ 10 := by
  dsimp only [apply_interactions]
  split_ifs with h1 h2
  · unfold stimulate
    exact ⟨le_min (by norm_num) (by linarith [(hL h).1]), min_le_left _ _⟩
  · unfold suppress
    refine ⟨le_max_left _ _, max_le (by norm_num) ?_⟩
    have := abs_nonneg (interaction_sum L h)
    linarith [(hL h).2]
  · exact hL h

theorem decay_mem {ρ : HName → ℚ} (hρ : DecayRateBounds ρ) (h : HName) {level : ℚ}
    (hl : 0 ≤ level ∧ level ≤ 10) :
    0 ≤ decay ρ h level ∧ decay ρ h level ≤ 10 := by
  obtain ⟨hr0, hr1⟩ := decay_rate_unit hρ h
  obtain ⟨hb0, hb1⟩ := baseline_mem h
  unfold decay
  constructor
  · nlinarith [mul_nonneg hr0 hl.1, mul_nonneg (sub_nonneg.mpr hr1) hb0]
  · nlinarith [mul_nonneg hr0 (sub_nonneg.mpr hl.2),
      mul_nonneg (sub_nonneg.mpr hr1) (sub_nonneg.mpr hb1)]

theorem cocktail_update_mem {ρ : HName → ℚ} (hρ : DecayRateBounds ρ)
    (e : EmotionFeatures) (he : e.Valid) (L : HName → ℚ)
    (hL : ∀ h, 0 ≤ L h ∧ L h ≤ 10) (h : HName) :
    0 ≤ cocktail_update ρ e L h ∧ cocktail_update ρ e L h ≤ 10 := by
  unfold cocktail_update
  exact decay_mem hρ h (apply_interactions_mem _ (produce_all_mem e he L hL) h)

theorem init_level_mem (h : HName) : 0 ≤ init_level h ∧ init_level h ≤ 10 := by
  cases h <;> constructor <;> norm_num [init_level]

/-! Lemmas about `restore_levels`. -/

theorem restore_levels_nil (L : HName → ℚ) : restore_levels [] L = L := rfl

theorem restore_levels_cons (p : String × ℚ) (rest : List (String × ℚ)) (L : HName → ℚ) :
    restore_levels (p :: rest) L = restore_levels rest (restore_step L p) := rfl

theorem hname_of_string_name (h : HName) : hname_of_string h.name = some h := by
  cases h <;> rfl

theorem hname_of_string_some {s : String} {h0 : HName}
    (hf : hname_of_string s = some h0) : h0.name = s := by
  have := List.find?_some hf
  simpa using this

theorem restore_levels_cases (stored : List (String × ℚ)) (L : HName → ℚ) (h : HName) :
    restore_levels stored L h = L h ∨ ∃ p ∈ stored, restore_levels stored L h = p.2 := by
  induction stored generalizing L with
  | nil => exact Or.inl rfl
  | cons p rest ih =>
    rw [restore_levels_cons]
    rcases ih (restore_step L p) with h1 | ⟨q, hq, he⟩
    · rw [h1]
      unfold restore_step
      rcases hfind : hname_of_string p.1 with - | h0
      · exact Or.inl rfl
      · simp only
        by_cases hEq : h = h0
        · exact Or.inr ⟨p, List.mem_cons_self p rest, by simp [hEq]⟩
        · exact Or.inl (by simp [hEq])
    · exact Or.inr ⟨q, List.mem_cons_of_mem p hq, he⟩

theorem restore_levels_lookup (stored : List (String × ℚ)) (L0 : HName → ℚ) (h : HName)
    (hnodup : (stored.map Prod.fst).Nodup) :
    (∀ v : ℚ, (h.name, v) ∈ stored → restore_levels stored L0 h = v) ∧
    (h.name ∉ stored.map Prod.fst → restore_levels stored L0 h = L0 h) := by
  induction stored generalizing L0 with
  | nil => exact ⟨fun v hv => absurd hv (List.not_mem_nil _), fun _ => rfl⟩
  | cons p rest ih =>
    rw [List.map_cons] at hnodup
    obtain ⟨hp1, hrest⟩ := List.nodup_cons.mp hnodup
    constructor
    · intro v hv
      rcases List.mem_cons.mp hv with heq | hmem
      · obtain ⟨hfst, hsnd⟩ : p.1 = h.name ∧ p.2 = v := by
          cases p
          exact ⟨(congrArg Prod.fst heq).symm, (congrArg Prod.snd heq).symm⟩
        have hnotrest : h.name ∉ rest.map Prod.fst := hfst ▸ hp1
        rw [restore_levels_cons, (ih (restore_step L0 p) hrest).2 hnotrest]
        have hfind : hname_of_string p.1 = some h := by
          rw [hfst, hname_of_string_name]
        simp [restore_step, hfind, hsnd]
      · rw [restore_levels_cons]
        exact (ih (restore_step L0 p) hrest).1 v hmem
    · intro hnot
      have hnot' : h.name ∉ rest.map Prod.fst := by
        intro hc
        exact hnot (by rw [List.map_cons]; exact List.mem_cons_of_mem _ hc)
      have hne : p.1 ≠ h.name := by
        intro hc
        exact hnot (by rw [List.map_cons, ← hc]; exact List.mem_cons_self _ _)
      rw [restore_levels_cons, (ih (restore_step L0 p) hrest).2 hnot']
      rcases hfind : hname_of_string p.1 with - | h0
      · simp [restore_step, hfind]
      · have hname0 : h0.name = p.1 := hname_of_string_some hfind
        have hneq : h ≠ h0 := by
          intro he
          exact hne (by rw [← hname0, ← he])
        simp [restore_step, hfind, hneq]

theorem restore_levels_ignores_unknown (stored : List (String × ℚ)) (L0 : HName → ℚ)
    (p : String × ℚ) (hp : hname_of_string p.1 = none) :
    restore_levels (stored ++ [p]) L0 = restore_levels stored L0 := by
  unfold restore_levels
  rw [List.foldl_append]
  simp [restore_step, hp]

/-! The reachability invariant behind claim C2. -/

theorem rho_star_bounds : DecayRateBounds rho_star := by
  intro h
  cases h <;> exact ⟨by norm_num [rho_star, decay_lo], by norm_num [rho_star, decay_hi]⟩

theorem engine_levels0_mem (s : EVCState)
    (hs : ∀ p ∈ s.hormone_levels, 0 ≤ p.2 ∧ p.2 ≤ 10) (h : HName) :
    0 ≤ engine_levels0 s h ∧ engine_levels0 s h ≤ 10 := by
  unfold engine_levels0
  split_ifs with hemp
  · exact init_level_mem h
  · rcases restore_levels_cases s.hormone_levels init_level h with h1 | ⟨q, hq, he⟩
    · rw [h1]
      exact init_level_mem h
    · rw [he]
      exact hs q hq

theorem engine_levels1_mem {ρ : HName → ℚ} (hρ : DecayRateBounds ρ) (s : EVCState)
    (e : EmotionFeatures) (he : e.Valid)
    (hs : ∀ p ∈ s.hormone_levels, 0 ≤ p.2 ∧ p.2 ≤ 10) (h : HName) :
    0 ≤ engine_levels1 ρ s e h ∧ engine_levels1 ρ s e h ≤ 10 :=
  cocktail_update_mem hρ e he _ (engine_levels0_mem s hs) h

theorem reachable_inv {ρ : HName → ℚ} (hρ : DecayRateBounds ρ) {s : EVCState}
    (hs : Reachable ρ s) :
    (-10 ≤ s.E ∧ s.E ≤ 10) ∧ (∀ p ∈ s.hormone_levels, 0 ≤ p.2 ∧ p.2 ≤ 10) ∧
    -3 ≤ s.delta_E ∧ s.delta_E ≤ 3 := by
  induction hs with
  | init =>
    refine ⟨⟨by norm_num [create_initial_state], by norm_num [create_initial_state]⟩,
      ?_, by norm_num [create_initial_state], by norm_num [create_initial_state]⟩
    intro p hp
    simp only [create_initial_state, serialize_levels, HORMONE_ORDER, List.map_cons,
      List.map_nil, List.mem_cons, List.not_mem_nil, or_false] at hp
    rcases hp with rfl | rfl | rfl | rfl | rfl | rfl | rfl | rfl <;>
      norm_num [init_level, HName.name]
  | step s e hr hv ih =>
    obtain ⟨-, hlv, -⟩ := ih
    refine ⟨?_, ?_, ?_, ?_⟩
    · rw [update_evc_E_eq]
      unfold engine_E_next
      exact round4_clamp_mem _ (-10) 10 round4_neg_ten round4_ten (by norm_num)
    · intro p hp
      rw [update_evc_levels_eq] at hp
      obtain ⟨h, -, rfl⟩ := List.mem_map.mp hp
      exact engine_levels1_mem hρ s e hv hlv h
    · rw [update_evc_delta_eq]
      unfold engine_delta
      exact (round4_clamp_mem _ (-3) 3 round4_neg_three round4_three (by norm_num)).1
    · rw [update_evc_delta_eq]
      unfold engine_delta
      exact (round4_clamp_mem _ (-3) 3 round4_neg_three round4_three (by norm_num)).2

/-! Concrete evaluations for the praise scenario (C9). -/

theorem initial_levels_restore : engine_levels0 create_initial_state = init_level := by
  funext h
  cases h <;>
    · simp [engine_levels0, create_initial_state, serialize_levels, HORMONE_ORDER,
        HName.name, restore_levels, restore_step, hname_of_string, init_level]

theorem praise_production_eval :
    produce_all e_praise init_level HName.serotonin = 807/200 ∧
    produce_all e_praise init_level HName.dopamine = 83/25 ∧
    produce_all e_praise init_level HName.cortisol = 42/25 ∧
    produce_all e_praise init_level HName.oxytocin = 241/100 ∧
    produce_all e_praise init_level HName.adrenaline = 1/2 ∧
    produce_all e_praise init_level HName.endorphin = 13/5 ∧
    produce_all e_praise init_level HName.gaba = 81/25 ∧
    produce_all e_praise init_level HName.norepinephrine = 29/10 := by
  have habs : |(0.8:ℚ)| = 0.8 := abs_of_nonneg (by norm_num)
  refine ⟨?_, ?_, ?_, ?_, ?_, ?_, ?_, ?_⟩ <;>
    · simp [produce_all, produce, compute_stimulus, e_praise, Intent.value, init_level,
        max_production, max_def, min_def, habs] <;> norm_num [habs]

theorem praise_interactions_eval :
    apply_interactions (produce_all e_praise init_level) HName.serotonin = 41171/10000 ∧
    apply_interactions (produce_all e_praise init_level) HName.dopamine = 67887/20000 ∧
    apply_interactions (produce_all e_praise init_level) HName.cortisol = 61893/40000 ∧
    apply_interactions (produce_all e_praise init_level) HName.oxytocin = 100597/40000 ∧
    apply_interactions (produce_all e_praise init_level) HName.adrenaline = 4519/10000 ∧
    apply_interactions (produce_all e_praise init_level) HName.endorphin = 53551/20000 ∧
    apply_interactions (produce_all e_praise init_level) HName.gaba = 65283/20000 ∧
    apply_interactions (produce_all e_praise init_level) HName.norepinephrine = 7319/2500 := by
  obtain ⟨h1, h2, h3, h4, h5, h6, h7, h8⟩ := praise_production_eval
  have habs1 : |(5307:ℚ)/40000| = 5307/40000 := abs_of_nonneg (by norm_num)
  have habs2 : |(481:ℚ)/10000| = 481/10000 := abs_of_nonneg (by norm_num)
  refine ⟨?_, ?_, ?_, ?_, ?_, ?_, ?_, ?_⟩ <;>
    · simp [apply_interactions, interaction_sum, HORMONE_ORDER, INTERACTION_MATRIX,
        get_normalized, stimulate, suppress, h1, h2, h3, h4, h5, h6, h7, h8,
        max_def, min_def, habs1, habs2] <;> norm_num [habs1, habs2]

theorem praise_support_eval :
    (compute_forces e_praise create_initial_state).S = 51/100 := by
  have hval : compute_support_force e_praise create_initial_state = 51/100 := by
    simp [compute_support_force, e_praise, create_initial_state, max_def, min_def]
    norm_num
  show round4 (compute_support_force e_praise create_initial_state) = 51/100
  rw [hval]
  exact @round4_eq_self (51/100) 5100 (by norm_num)

theorem praise_drag_eval :
    (compute_forces e_praise create_initial_state).D = 3/40 := by
  have hval : compute_drag_force e_praise = 3/40 := by
    simp [compute_drag_force, e_praise, max_def, min_def]
    norm_num
  show round4 (compute_drag_force e_praise) = 3/40
  rw [hval]
  exact @round4_eq_self (3/40) 750 (by norm_num)

theorem praise_sensitivity_eval :
    (compute_forces e_praise create_initial_state).K = 121/100 := by
  have hval : compute_sensitivity e_praise create_initial_state = 121/100 := by
    simp [compute_sensitivity, sensitivity_from_flags, e_praise, create_initial_state,
      max_def, min_def]
    norm_num
  show round4 (compute_sensitivity e_praise create_initial_state) = 121/100
  rw [hval]
  exact @round4_eq_self (121/100) 12100 (by norm_num)

/-! Concrete evaluations for the out-of-range restored levels (C10). -/

theorem below_levels0_eval :
    ∀ h, engine_levels0 s_below h = if h = HName.serotonin then (-100 : ℚ) else init_level h := by
  intro h
  cases h <;>
    simp [engine_levels0, s_below, create_initial_state, restore_levels, restore_step,
      hname_of_string, HORMONE_ORDER, HName.name, init_level]

theorem above_levels0_eval :
    ∀ h, engine_levels0 s_above h = if h = HName.serotonin then (100 : ℚ) else init_level h := by
  intro h
  cases h <;>
    simp [engine_levels0, s_above, create_initial_state, restore_levels, restore_step,
      hname_of_string, HORMONE_ORDER, HName.name, init_level]

theorem below_production_eval :
    produce_all e_default (engine_levels0 s_below) HName.serotonin = -19913/200 ∧
    produce_all e_default (engine_levels0 s_below) HName.dopamine = 2 ∧
    produce_all e_default (engine_levels0 s_below) HName.cortisol = 42/25 ∧
    produce_all e_default (engine_levels0 s_below) HName.oxytocin = 29/20 ∧
    produce_all e_default (engine_levels0 s_below) HName.adrenaline = 1/2 ∧
    produce_all e_default (engine_levels0 s_below) HName.endorphin = 11/5 ∧
    produce_all e_default (engine_levels0 s_below) HName.gaba = 3 ∧
    produce_all e_default (engine_levels0 s_below) HName.norepinephrine = 5/2 := by
  refine ⟨?_, ?_, ?_, ?_, ?_, ?_, ?_, ?_⟩ <;>
    · simp [produce_all, produce, compute_stimulus, e_default, Intent.value,
        below_levels0_eval, init_level, max_production, max_def, min_def] <;> norm_num

theorem above_production_eval :
    produce_all e_default (engine_levels0 s_above) HName.serotonin = 10 ∧
    produce_all e_default (engine_levels0 s_above) HName.dopamine = 2 ∧
    produce_all e_default (engine_levels0 s_above) HName.cortisol = 42/25 ∧
    produce_all e_default (engine_levels0 s_above) HName.oxytocin = 29/20 ∧
    produce_all e_default (engine_levels0 s_above) HName.adrenaline = 1/2 ∧
    produce_all e_default (engine_levels0 s_above) HName.endorphin = 11/5 ∧
    produce_all e_default (engine_levels0 s_above) HName.gaba = 3 ∧
    produce_all e_default (engine_levels0 s_above) HName.norepinephrine = 5/2 := by
  refine ⟨?_, ?_, ?_, ?_, ?_, ?_, ?_, ?_⟩ <;>
    · simp [produce_all, produce, compute_stimulus, e_default, Intent.value,
        above_levels0_eval, init_level, max_production, max_def, min_def] <;> norm_num

theorem below_serotonin_interaction_eval :
    apply_interactions (produce_all e_default (engine_levels0 s_below)) HName.serotonin
      = -995121/10000 := by
  obtain ⟨h1, h2, h3, h4, h5, h6, h7, h8⟩ := below_production_eval
  simp [apply_interactions, interaction_sum, HORMONE_ORDER, INTERACTION_MATRIX,
    get_normalized, stimulate, suppress, h1, h2, h3, h4, h5, h6, h7, h8,
    max_def, min_def] <;> norm_num

theorem above_serotonin_interaction_eval :
    apply_interactions (produce_all e_default (engine_levels0 s_above)) HName.serotonin
      = 10 := by
  obtain ⟨h1, h2, h3, h4, h5, h6, h7, h8⟩ := above_production_eval
  simp [apply_interactions, interaction_sum, HORMONE_ORDER, INTERACTION_MATRIX,
    get_normalized, stimulate, suppress, h1, h2, h3, h4, h5, h6, h7, h8,
    max_def, min_def] <;> norm_num

theorem e_default_valid : e_default.Valid := by
  refine ⟨?_, ?_, ?_, ?_, ?_, ?_, ?_, ?_, ?_, ?_, ?_, ?_, ?_, ?_⟩ <;> norm_num [e_default]

theorem stored_mixed_nodup : (stored_mixed.map Prod.fst).Nodup := by
  simp [stored_mixed]

/-- C1: the per-turn update computes the legacy target
`E_target_forces = clamp(K × (S_biased − D) × 10, -10, 10)` from the
bias-adjusted S and the unbiased D and K, blends it as
`E_blended = 0.7 × E_hormonal + 0.3 × E_target_forces` with the cocktail's
composite energy, and rate-limits with `delta_E = clamp(E_blended − E_prev, -3, 3)`
and `E_next = clamp(E_prev + delta_E, -10, 10)`, where `E_prev` is the previous
state's E; the emitted state stores these three quantities rounded to 4
decimals. -/
theorem update_evc_energy_equations (ρ : HName → ℚ) (s : EVCState) (e : EmotionFeatures) :
    (update_evc ρ s e).1.E_target =
      round4 (0.7 * compute_E (engine_levels1 ρ s e) +
        0.3 * clamp ((compute_forces e s).K *
          (apply_therapeutic_bias (compute_forces e s).S s.E - (compute_forces e s).D) * 10)
          (-10) 10) ∧
    (update_evc ρ s e).1.delta_E =
      round4 (clamp ((0.7 * compute_E (engine_levels1 ρ s e) +
        0.3 * clamp ((compute_forces e s).K *
          (apply_therapeutic_bias (compute_forces e s).S s.E - (compute_forces e s).D) * 10)
          (-10) 10) - s.E) (-3) 3) ∧
    (update_evc ρ s e).1.E =
      round4 (clamp (s.E + clamp ((0.7 * compute_E (engine_levels1 ρ s e) +
        0.3 * clamp ((compute_forces e s).K *
          (apply_therapeutic_bias (compute_forces e s).S s.E - (compute_forces e s).D) * 10)
          (-10) 10) - s.E) (-3) 3) (-10) 10) :=
  ⟨rfl, rfl, rfl⟩

/-- C3 counterexample: on the first update from the initial state with an
anger-raising input, the engine's sensitivity K is 1.3 (computed from the
previous state's all-false flags), while the claim's formula over the flag set
recomputed this turn (anger = true) gives 1.42. -/
theorem sensitivity_current_flags_counterexample :
    (update_evc rho_star create_initial_state e_anger).2.K = 13/10 ∧
    sensitivity_from_flags e_anger (update_evc rho_star create_initial_state e_anger).1.flags
      = 71/50 ∧
    ¬((13 : ℚ)/10 = 71/50) := by
  have hK : (update_evc rho_star create_initial_state e_anger).2.K = 13/10 := by
    rw [update_evc_K_eq]
    have hval : sensitivity_from_flags e_anger create_initial_state.flags = 13/10 := by
      simp [sensitivity_from_flags, create_initial_state, e_anger, max_def, min_def] <;>
        norm_num
    rw [hval]
    exact @round4_eq_self (13/10) 13000 (by norm_num)
  refine ⟨hK, ?_, by norm_num⟩
  have h1 : -3 ≤ engine_delta rho_star create_initial_state e_anger := le_clamp _ _ _
  have h2 : engine_delta rho_star create_initial_state e_anger ≤ 3 :=
    clamp_le _ _ _ (by norm_num)
  have hE0 : create_initial_state.E = 0 := rfl
  have hnext : engine_E_next rho_star create_initial_state e_anger
      = engine_delta rho_star create_initial_state e_anger := by
    unfold engine_E_next
    rw [hE0, zero_add]
    exact clamp_eq_self _ _ _ (by linarith) (by linarith)
  have hnc : ¬(engine_E_next rho_star create_initial_state e_anger ≤ -6) := by
    rw [hnext]
    linarith
  have hflags : (update_evc rho_star create_initial_state e_anger).1.flags
      = { anger := true } := by
    rw [update_evc_flags_eq]
    unfold update_flags
    simp only [EVCFlags.mk.injEq]
    refine ⟨?_, ?_, ?_, ?_, ?_, ?_, ?_⟩
    · rw [decide_eq_false_iff_not]
      norm_num [e_anger]
    · rw [decide_eq_true_eq]
      refine ⟨by norm_num [e_anger], by norm_num [e_anger], by norm_num [e_anger]⟩
    · rw [decide_eq_false_iff_not]
      norm_num [e_anger]
    · rw [decide_eq_false_iff_not]
      norm_num [e_anger]
    · rw [decide_eq_false_iff_not]
      exact hnc
    · rw [decide_eq_false_iff_not]
      norm_num [e_anger]
    · rw [decide_eq_false_iff_not]
      have habs : |(0.6 : ℚ)| = 0.6 := abs_of_nonneg (by norm_num)
      have habs2 : |(3 : ℚ)/5| = 3/5 := abs_of_nonneg (by norm_num)
      norm_num [e_anger, habs, habs2]
  rw [hflags]
  norm_num [sensitivity_from_flags, e_anger, max_def, min_def]

/-- C3 amended: the sensitivity returned by the per-turn update equals
`K = 1.0 + 0.3×arousal + 0.2×uncertainty + 0.4×risk` clamped to [0.5, 2.5]
(and rounded to 4 decimals), where the risk increments 0.3 anger / 0.2 anxiety
/ 0.2 stress / 0.15 sarcasm / 0.5 crisis are read from the PREVIOUS state's
flag set (the flags carried into the call), capped at 1.0 — not from the flag
set recomputed this turn. -/
theorem sensitivity_previous_flags_spec (ρ : HName → ℚ) (s : EVCState) (e : EmotionFeatures) :
    (update_evc ρ s e).2.K = round4 (sensitivity_from_flags e s.flags) ∧
    sensitivity_from_flags e s.flags =
      max 0.5 (min 2.5 (1.0 + 0.3 * e.arousal + 0.2 * e.uncertainty +
        0.4 * min 1 ((if s.flags.anger then (0.3 : ℚ) else 0) +
          (if s.flags.anxiety then 0.2 else 0) +
          (if s.flags.stress then 0.2 else 0) +
          (if s.flags.sarcasm then 0.15 else 0) +
          (if s.flags.crisis then 0.5 else 0)))) :=
  ⟨rfl, rfl⟩

/-- C4 counterexample: at S = 1 (a legal support value) the re-clamp to [0,1]
forces `bias(1, -2) = 1 = bias(1, 0)`, so the claimed strict inequality
`bias(S, -2) > bias(S, 0)` fails. -/
theorem therapeutic_bias_strict_counterexample :
    apply_therapeutic_bias 1 (-2) = 1 ∧ apply_therapeutic_bias 1 0 = 1 ∧
    ¬(apply_therapeutic_bias 1 0 < apply_therapeutic_bias 1 (-2)) := by
  refine ⟨?_, ?_, ?_⟩ <;> norm_num [apply_therapeutic_bias, max_def, min_def]

/-- C4 amended: for S in [0,1] the therapeutic bias returns S whenever the
previous energy is ≥ 0, is monotone in the depth of negative energy
(`bias(S,-8) ≥ bias(S,-2) ≥ bias(S,0) = S`), is strictly above S at E = -2
whenever S < 1 (at S = 1 the re-clamp forces equality), and the result stays
in [0,1]. -/
theorem therapeutic_bias_monotone_spec (S E : ℚ) (hS0 : 0 ≤ S) (hS1 : S ≤ 1) :
    (0 ≤ E → apply_therapeutic_bias S E = S) ∧
    apply_therapeutic_bias S 0 = S ∧
    apply_therapeutic_bias S (-2) ≤ apply_therapeutic_bias S (-8) ∧
    S ≤ apply_therapeutic_bias S (-2) ∧
    (S < 1 → S < apply_therapeutic_bias S (-2)) ∧
    0 ≤ apply_therapeutic_bias S E ∧ apply_therapeutic_bias S E ≤ 1 := by
  refine ⟨?_, ?_, ?_, ?_, ?_, ?_, ?_⟩
  · intro hE
    unfold apply_therapeutic_bias
    rw [if_neg (not_lt.mpr hE)]
  · norm_num [apply_therapeutic_bias]
  · unfold apply_therapeutic_bias
    rw [if_pos (by norm_num : (-2 : ℚ) < 0), if_pos (by norm_num : (-8 : ℚ) < 0)]
    exact min_le_min (le_refl _) (max_le_max (le_refl _) (by norm_num))
  · unfold apply_therapeutic_bias
    rw [if_pos (by norm_num : (-2 : ℚ) < 0)]
    refine le_min hS1 (le_max_of_le_right ?_)
    norm_num
  · intro hlt
    unfold apply_therapeutic_bias
    rw [if_pos (by norm_num : (-2 : ℚ) < 0)]
    refine lt_min hlt (lt_of_lt_of_le ?_ (le_max_right _ _))
    norm_num
  · unfold apply_therapeutic_bias
    split_ifs with hE
    · exact le_min (by norm_num) (le_max_left _ _)
    · exact hS0
  · unfold apply_therapeutic_bias
    split_ifs with hE
    · exact min_le_left _ _
    · exact hS1

/-- Witness for the amended C4 at S = 1/2, E = -1. -/
theorem therapeutic_bias_monotone_spec_witness :
    ((0 : ℚ) ≤ 1/2 ∧ (1/2 : ℚ) ≤ 1) ∧
    (((0 : ℚ) ≤ -1 → apply_therapeutic_bias (1/2) (-1) = 1/2) ∧
      apply_therapeutic_bias (1/2) 0 = 1/2 ∧
      apply_therapeutic_bias (1/2) (-2) ≤ apply_therapeutic_bias (1/2) (-8) ∧
      (1/2 : ℚ) ≤ apply_therapeutic_bias (1/2) (-2) ∧
      ((1/2 : ℚ) < 1 → (1/2 : ℚ) < apply_therapeutic_bias (1/2) (-2)) ∧
      0 ≤ apply_therapeutic_bias (1/2) (-1) ∧ apply_therapeutic_bias (1/2) (-1) ≤ 1) :=
  ⟨⟨by norm_num, by norm_num⟩,
    therapeutic_bias_monotone_spec (1/2) (-1) (by norm_num) (by norm_num)⟩

/-- C6: phase classification evaluates its overlapping rules in priority order
with the first match winning — CrashRecovery, then Peak, then Declining, then
Rising, else Stable — and takes the claimed values on the five sample
inputs. -/
theorem classify_phase_priority_spec :
    (∀ E d : ℚ,
      (classify_phase E d = EmotionalPhase.CrashRecovery ↔ E ≤ -6 ∧ d > 0) ∧
      (classify_phase E d = EmotionalPhase.Peak ↔ ¬(E ≤ -6 ∧ d > 0) ∧ E > 6 ∧ d < 0) ∧
      (classify_phase E d = EmotionalPhase.Declining ↔
        ¬(E ≤ -6 ∧ d > 0) ∧ ¬(E > 6 ∧ d < 0) ∧ d < -0.5) ∧
      (classify_phase E d = EmotionalPhase.Rising ↔
        ¬(E ≤ -6 ∧ d > 0) ∧ ¬(E > 6 ∧ d < 0) ∧ ¬(d < -0.5) ∧ d > 0.5) ∧
      (classify_phase E d = EmotionalPhase.Stable ↔
        ¬(E ≤ -6 ∧ d > 0) ∧ ¬(E > 6 ∧ d < 0) ∧ ¬(d < -0.5) ∧ ¬(d > 0.5))) ∧
    classify_phase (-7) 1 = EmotionalPhase.CrashRecovery ∧
    classify_phase 7 (-1) = EmotionalPhase.Peak ∧
    classify_phase 0 (-1) = EmotionalPhase.Declining ∧
    classify_phase 0 1 = EmotionalPhase.Rising ∧
    classify_phase 0 0 = EmotionalPhase.Stable := by
  constructor
  · intro E d
    unfold classify_phase
    refine ⟨?_, ?_, ?_, ?_, ?_⟩ <;> split_ifs with h1 h2 h3 h4 <;> simp_all
  · refine ⟨?_, ?_, ?_, ?_, ?_⟩ <;> norm_num [classify_phase]

theorem bot_update_pacing (b : BotEmotionalState) (x : ℚ) :
    (bot_update b x).pacing_turns = (track_streak b x).pacing_turns := rfl

theorem bot_traj_pacing (es : ℕ → ℚ) (hneg : ∀ n, es n < -0.5) :
    ∀ n, (bot_traj es n).pacing_turns = n := by
  intro n
  induction n with
  | zero => rfl
  | succ n ih =>
    show (bot_update (bot_traj es n) (es n)).pacing_turns = ((n + 1 : ℕ) : ℤ)
    rw [bot_update_pacing]
    unfold track_streak
    rw [if_pos (hneg n)]
    show (bot_traj es n).pacing_turns + 1 = ((n + 1 : ℕ) : ℤ)
    rw [ih]
    push_cast
    ring

/-- C7: from the bot controller at rest, under consecutive updates all with
`E_user < -0.5`, the lead force computed inside the update is zero on turns 1
and 2 and strictly positive on turn 3 (= min_pacing + 1). -/
theorem lead_force_turn_three_spec (es : ℕ → ℚ) (hneg : ∀ n, es n < -0.5) :
    lead_force (track_streak (bot_traj es 0) (es 0)).pacing_turns (es 0) = 0 ∧
    lead_force (track_streak (bot_traj es 1) (es 1)).pacing_turns (es 1) = 0 ∧
    0 < lead_force (track_streak (bot_traj es 2) (es 2)).pacing_turns (es 2) := by
  have hp := bot_traj_pacing es hneg
  have hstep : ∀ n, (track_streak (bot_traj es n) (es n)).pacing_turns
      = (bot_traj es n).pacing_turns + 1 := by
    intro n
    unfold track_streak
    rw [if_pos (hneg n)]
  refine ⟨?_, ?_, ?_⟩
  · rw [hstep 0, hp 0]
    unfold lead_force
    rw [if_neg]
    rintro ⟨hc, -⟩
    norm_num at hc
  · rw [hstep 1, hp 1]
    unfold lead_force
    rw [if_pos ⟨by norm_num, by linarith [hneg 1]⟩]
    norm_num [min_def]
  · rw [hstep 2, hp 2]
    unfold lead_force
    rw [if_pos ⟨by norm_num, by linarith [hneg 2]⟩]
    norm_num [min_def]

/-- Witness for C7 with the constant sequence -1. -/
theorem lead_force_turn_three_spec_witness :
    (∀ n, es_neg n < -0.5) ∧
    (lead_force (track_streak (bot_traj es_neg 0) (es_neg 0)).pacing_turns (es_neg 0) = 0 ∧
      lead_force (track_streak (bot_traj es_neg 1) (es_neg 1)).pacing_turns (es_neg 1) = 0 ∧
      0 < lead_force (track_streak (bot_traj es_neg 2) (es_neg 2)).pacing_turns (es_neg 2)) :=
  ⟨fun n => by norm_num [es_neg],
    lead_force_turn_three_spec es_neg (fun n => by norm_num [es_neg])⟩

/-- C8: restoring hormone levels from a stored map is total and tolerant —
an entry carrying a hormone's name overwrites exactly that hormone's level,
a hormone missing from the map keeps its constructed default, and appending
an entry with an unknown name changes nothing. -/
theorem restore_levels_tolerant_spec (stored : List (String × ℚ)) (L0 : HName → ℚ)
    (h : HName) (hnodup : (stored.map Prod.fst).Nodup) :
    (∀ v : ℚ, (h.name, v) ∈ stored → restore_levels stored L0 h = v) ∧
    (h.name ∉ stored.map Prod.fst → restore_levels stored L0 h = L0 h) ∧
    (∀ p : String × ℚ, hname_of_string p.1 = none →
      restore_levels (stored ++ [p]) L0 h = restore_levels stored L0 h) := by
  refine ⟨(restore_levels_lookup stored L0 h hnodup).1,
    (restore_levels_lookup stored L0 h hnodup).2, ?_⟩
  intro p hp
  rw [restore_levels_ignores_unknown stored L0 p hp]

/-- Witness for C8 on a map with one matching and one unknown entry. -/
theorem restore_levels_tolerant_spec_witness :
    (stored_mixed.map Prod.fst).Nodup ∧
    ((∀ v : ℚ, (HName.serotonin.name, v) ∈ stored_mixed →
        restore_levels stored_mixed init_level HName.serotonin = v) ∧
      (HName.serotonin.name ∉ stored_mixed.map Prod.fst →
        restore_levels stored_mixed init_level HName.serotonin
          = init_level HName.serotonin) ∧
      (∀ p : String × ℚ, hname_of_string p.1 = none →
        restore_levels (stored_mixed ++ [p]) init_level HName.serotonin
          = restore_levels stored_mixed init_level HName.serotonin)) :=
  ⟨stored_mixed_nodup,
    restore_levels_tolerant_spec stored_mixed init_level HName.serotonin stored_mixed_nodup⟩

/-- C2: every state reachable from `create_initial_state` by updates with
range-valid emotion inputs has E in [-10, 10], every level in its
hormone_levels snapshot in [-10, 10], and a recorded delta_E with
|delta_E| ≤ 3. -/
theorem reachable_bounds_spec (ρ : HName → ℚ) (s : EVCState)
    (hρ : DecayRateBounds ρ) (hs : Reachable ρ s) :
    (-10 ≤ s.E ∧ s.E ≤ 10) ∧
    (∀ p ∈ s.hormone_levels, -10 ≤ p.2 ∧ p.2 ≤ 10) ∧
    |s.delta_E| ≤ 3 := by
  obtain ⟨hE, hlv, hd1, hd2⟩ := reachable_inv hρ hs
  exact ⟨hE, fun p hp => ⟨by linarith [(hlv p hp).1], (hlv p hp).2⟩, abs_le.mpr ⟨hd1, hd2⟩⟩

/-- Witness for C2 at the initial state with an in-bracket decay vector. -/
theorem reachable_bounds_spec_witness :
    DecayRateBounds rho_star ∧
    ((-10 ≤ create_initial_state.E ∧ create_initial_state.E ≤ 10) ∧
      (∀ p ∈ create_initial_state.hormone_levels, -10 ≤ p.2 ∧ p.2 ≤ 10) ∧
      |create_initial_state.delta_E| ≤ 3) :=
  ⟨rho_star_bounds,
    reachable_bounds_spec rho_star create_initial_state rho_star_bounds Reachable.init⟩

/-- C5: one cocktail update is decay after simultaneous interaction after
production — production adds `stimulus × max_production` clamped at 10;
every target's interaction reads the same post-production snapshot, sums
`weight × normalized level` over the other hormones and the new level is the
old one plus that sum clamped into [0, 10]; decay multiplies the
baseline-relative offset by the decay rate `ρ h` standing for
`0.5^(1/half_life)`. -/
theorem cocktail_update_order_spec (ρ : HName → ℚ) (e : EmotionFeatures) (L : HName → ℚ)
    (he : e.Valid) (hL : ∀ h, 0 ≤ L h ∧ L h ≤ 10) (h : HName) :
    produce_all e L h = min 10 (L h + compute_stimulus h e * max_production h) ∧
    apply_interactions (produce_all e L) h =
      clamp (produce_all e L h + interaction_sum (produce_all e L) h) 0 10 ∧
    cocktail_update ρ e L h =
      baseline h + (apply_interactions (produce_all e L) h - baseline h) * ρ h := by
  have hP := produce_all_mem e he L hL h
  refine ⟨rfl, ?_, rfl⟩
  dsimp only [apply_interactions]
  split_ifs with h1 h2
  · unfold stimulate clamp
    rw [max_eq_right (le_min (by norm_num) (by linarith [hP.1]))]
  · unfold suppress clamp
    rw [abs_of_neg h2, min_eq_right (by linarith [hP.2]), sub_neg_eq_add]
  · have h0 : interaction_sum (produce_all e L) h = 0 :=
      le_antisymm (not_lt.mp h1) (not_lt.mp h2)
    rw [h0, add_zero, clamp_eq_self _ _ _ hP.1 hP.2]

/-- Witness for C5 at the default emotion, baseline levels, serotonin. -/
theorem cocktail_update_order_spec_witness :
    (e_default.Valid ∧ (∀ h, 0 ≤ init_level h ∧ init_level h ≤ 10)) ∧
    (produce_all e_default init_level HName.serotonin =
        min 10 (init_level HName.serotonin +
          compute_stimulus HName.serotonin e_default * max_production HName.serotonin) ∧
      apply_interactions (produce_all e_default init_level) HName.serotonin =
        clamp (produce_all e_default init_level HName.serotonin +
          interaction_sum (produce_all e_default init_level) HName.serotonin) 0 10 ∧
      cocktail_update rho_star e_default init_level HName.serotonin =
        baseline HName.serotonin +
          (apply_interactions (produce_all e_default init_level) HName.serotonin -
            baseline HName.serotonin) * rho_star HName.serotonin) :=
  ⟨⟨e_default_valid, init_level_mem⟩,
    cocktail_update_order_spec rho_star e_default init_level e_default_valid init_level_mem
      HName.serotonin⟩

/-- C9: one update from the initial state with valence 0.8, intent praise and
default other fields yields a strictly positive stored E and turn 1, for any
decay-rate vector within the brackets of the true rates. -/
theorem update_praise_positive_first_turn (ρ : HName → ℚ) (hρ : DecayRateBounds ρ) :
    0 < (update_evc ρ create_initial_state e_praise).1.E ∧
    (update_evc ρ create_initial_state e_praise).1.turn = 1 := by
  obtain ⟨q1, q2, q3, q4, q5, q6, q7, q8⟩ := praise_interactions_eval
  have b1 := hρ HName.serotonin
  have b2 := hρ HName.dopamine
  have b3 := hρ HName.cortisol
  have b4 := hρ HName.oxytocin
  have b5 := hρ HName.adrenaline
  have b6 := hρ HName.endorphin
  have b7 := hρ HName.gaba
  have b8 := hρ HName.norepinephrine
  simp only [decay_lo, decay_hi] at b1 b2 b3 b4 b5 b6 b7 b8
  have hl1 : ∀ h, engine_levels1 ρ create_initial_state e_praise h
      = decay ρ h (apply_interactions (produce_all e_praise init_level) h) := by
    intro h
    unfold engine_levels1 cocktail_update
    rw [initial_levels_restore]
  have hsum_lb : (163 : ℚ)/100 ≤ HORMONE_ORDER.foldl
      (fun acc h => acc + E_WEIGHTS h * engine_levels1 ρ create_initial_state e_praise h)
      0 := by
    simp only [HORMONE_ORDER, List.foldl_cons, List.foldl_nil, hl1, q1, q2, q3, q4, q5,
      q6, q7, q8, decay, E_WEIGHTS, baseline]
    linarith [b1.1, b1.2, b2.1, b2.2, b3.1, b3.2, b4.1, b4.2, b5.1, b5.2, b6.1, b6.2,
      b7.1, b7.2, b8.1, b8.2]
  have hsum_ub : HORMONE_ORDER.foldl
      (fun acc h => acc + E_WEIGHTS h * engine_levels1 ρ create_initial_state e_praise h)
      0 ≤ (164 : ℚ)/100 := by
    simp only [HORMONE_ORDER, List.foldl_cons, List.foldl_nil, hl1, q1, q2, q3, q4, q5,
      q6, q7, q8, decay, E_WEIGHTS, baseline]
    linarith [b1.1, b1.2, b2.1, b2.2, b3.1, b3.2, b4.1, b4.2, b5.1, b5.2, b6.1, b6.2,
      b7.1, b7.2, b8.1, b8.2]
  have hcE : compute_E (engine_levels1 ρ create_initial_state e_praise)
      = HORMONE_ORDER.foldl
        (fun acc h => acc + E_WEIGHTS h * engine_levels1 ρ create_initial_state e_praise h)
        0 := by
    unfold compute_E
    rw [min_eq_right (by linarith), max_eq_right (by linarith)]
  have hEtf : clamp ((compute_forces e_praise create_initial_state).K *
      (apply_therapeutic_bias (compute_forces e_praise create_initial_state).S
        create_initial_state.E - (compute_forces e_praise create_initial_state).D) * 10)
      (-10) 10 = 10527/2000 := by
    rw [praise_support_eval, praise_drag_eval, praise_sensitivity_eval]
    have hbias : apply_therapeutic_bias (51/100) create_initial_state.E = 51/100 := by
      norm_num [apply_therapeutic_bias, create_initial_state]
    rw [hbias]
    rw [show (121 : ℚ)/100 * (51/100 - 3/40) * 10 = 10527/2000 by norm_num]
    exact clamp_eq_self _ _ _ (by norm_num) (by norm_num)
  have hEb : engine_E_blended ρ create_initial_state e_praise
      = 0.7 * compute_E (engine_levels1 ρ create_initial_state e_praise)
        + 0.3 * (10527/2000) := by
    unfold engine_E_blended
    rw [hEtf]
  have hEb_lb : 2 ≤ engine_E_blended ρ create_initial_state e_praise := by
    rw [hEb, hcE]
    linarith
  have hEb_ub : engine_E_blended ρ create_initial_state e_praise ≤ 3 := by
    rw [hEb, hcE]
    linarith
  have hE0 : create_initial_state.E = 0 := rfl
  have hdelta : engine_delta ρ create_initial_state e_praise
      = engine_E_blended ρ create_initial_state e_praise := by
    unfold engine_delta
    rw [hE0, sub_zero]
    exact clamp_eq_self _ _ _ (by linarith) (by linarith)
  have hnext : engine_E_next ρ create_initial_state e_praise
      = engine_E_blended ρ create_initial_state e_praise := by
    unfold engine_E_next
    rw [hE0, zero_add, hdelta]
    exact clamp_eq_self _ _ _ (by linarith) (by linarith)
  constructor
  · rw [update_evc_E_eq, hnext]
    have habs := abs_le.mp (round4_abs_sub (engine_E_blended ρ create_initial_state e_praise))
    linarith [habs.1, habs.2]
  · rfl

/-- Witness for C9 at the in-bracket decay vector. -/
theorem update_praise_positive_first_turn_witness :
    DecayRateBounds rho_star ∧
    (0 < (update_evc rho_star create_initial_state e_praise).1.E ∧
      (update_evc rho_star create_initial_state e_praise).1.turn = 1) :=
  ⟨rho_star_bounds, update_praise_positive_first_turn rho_star rho_star_bounds⟩

/-- C10: the update performs no range validation on restored levels — with a
stored serotonin level of -100 the update runs and its emitted snapshot still
carries a strictly negative serotonin level, while a stored level of +100 is
pulled back to at most 10 by the production clamp. -/
theorem restored_out_of_range_level_spec (ρ : HName → ℚ) (hρ : DecayRateBounds ρ) :
    (∃ v, ("serotonin", v) ∈ (update_evc ρ s_below e_default).1.hormone_levels ∧ v < 0) ∧
    (∃ w, ("serotonin", w) ∈ (update_evc ρ s_above e_default).1.hormone_levels ∧ w ≤ 10) := by
  have hr := hρ HName.serotonin
  simp only [decay_lo, decay_hi] at hr
  constructor
  · refine ⟨engine_levels1 ρ s_below e_default HName.serotonin, ?_, ?_⟩
    · rw [update_evc_levels_eq]
      exact List.mem_map.mpr ⟨HName.serotonin, by simp [HORMONE_ORDER], rfl⟩
    · have hval : engine_levels1 ρ s_below e_default HName.serotonin
          = decay ρ HName.serotonin (-995121/10000) := by
        unfold engine_levels1 cocktail_update
        rw [below_serotonin_interaction_eval]
      rw [hval]
      unfold decay
      simp only [baseline]
      linarith [hr.1, hr.2]
  · refine ⟨engine_levels1 ρ s_above e_default HName.serotonin, ?_, ?_⟩
    · rw [update_evc_levels_eq]
      exact List.mem_map.mpr ⟨HName.serotonin, by simp [HORMONE_ORDER], rfl⟩
    · have hval : engine_levels1 ρ s_above e_default HName.serotonin
          = decay ρ HName.serotonin 10 := by
        unfold engine_levels1 cocktail_update
        rw [above_serotonin_interaction_eval]
      rw [hval]
      unfold decay
      simp only [baseline]
      linarith [hr.1, hr.2]

/-- Witness for C10 at the in-bracket decay vector. -/
theorem restored_out_of_range_level_spec_witness :
    DecayRateBounds rho_star ∧
    ((∃ v, ("serotonin", v) ∈ (update_evc rho_star s_below e_default).1.hormone_levels ∧
        v < 0) ∧
      (∃ w, ("serotonin", w) ∈ (update_evc rho_star s_above e_default).1.hormone_levels ∧
        w ≤ 10)) :=
  ⟨rho_star_bounds, restored_out_of_range_level_spec rho_star rho_star_bounds⟩
